import Mathlib

/-!
Verification development for the problem tools of the servicenow-mcp
repository (src/servicenow_mcp/tools/problem_tools.py).

The module exposes three read-only operations over the ServiceNow `problem`
table: `list_problems`, `get_problem_by_number`, and `search_problems`.
Each is embedded here as a total Lean function.  The HTTP transport is
abstracted as a function `Request → HttpOutcome`; every operation returns,
next to its result envelope, the list of requests it issued, so that
"no HTTP call is made" is expressible as an empty request log.

Python exceptions caught by the `except requests.RequestException` blocks
are modelled by the `transportError` and `badJson` outcome constructors
(in requests >= 2.27, `response.json()` raises
`requests.exceptions.JSONDecodeError`, a subclass of `RequestException`,
so malformed bodies take the same handler).  Paths on which the Python
code would raise an uncaught exception on impossible upstream shapes
(for example a non-object JSON body, where `data.get` would fail) are
outside every claim; the embedding totalises them by treating such bodies
as carrying no records.
-/

/-- Shallow model of a parsed JSON value, as returned by `response.json()`.
Python `None` is `null`. -/
inductive Json where
  | null : Json
  | bool (b : Bool) : Json
  | num (n : Int) : Json
  | str (s : String) : Json
  | arr (elems : List Json) : Json
  | obj (fields : List (String × Json)) : Json

/-- Mirrors Python `rec.get(key)` on a dict: the value when the key is
present, `None` (here `Json.null`) otherwise.  A non-dict `rec` is outside
every claim (Python would raise); it yields `null`. -/
def recGet (rec : Json) (key : String) : Json :=
  match rec with
  | Json.obj fields => (fields.lookup key).getD Json.null
  | _ => Json.null

/-- Mirrors lines 96-98 / 173-175 of problem_tools.py:
`if isinstance(assigned_to, dict): assigned_to = assigned_to.get("display_value")`.
Only a dict value is collapsed; every other value passes through unchanged. -/
def collapseAssignedTo (v : Json) : Json :=
  match v with
  | Json.obj fields => (fields.lookup "display_value").getD Json.null
  | _ => v

/-- Mirrors the normalized record literal of `list_problems` (lines 100-114)
and `get_problem_by_number` (lines 177-189): the same eleven keys in the
same order, with only `assigned_to` collapsed, and `created_on`/`updated_on`
sourced from `sys_created_on`/`sys_updated_on`. -/
def normalizeProblem (rec : Json) : List (String × Json) :=
  [("sys_id", recGet rec "sys_id"),
   ("number", recGet rec "number"),
   ("short_description", recGet rec "short_description"),
   ("description", recGet rec "description"),
   ("state", recGet rec "state"),
   ("priority", recGet rec "priority"),
   ("assigned_to", collapseAssignedTo (recGet rec "assigned_to")),
   ("category", recGet rec "category"),
   ("subcategory", recGet rec "subcategory"),
   ("created_on", recGet rec "sys_created_on"),
   ("updated_on", recGet rec "sys_updated_on")]

/-- Mirrors the compact record literal of `search_problems` (lines 256-266). -/
def normalizeSearchProblem (rec : Json) : List (String × Json) :=
  [("sys_id", recGet rec "sys_id"),
   ("number", recGet rec "number"),
   ("short_description", recGet rec "short_description"),
   ("state", recGet rec "state"),
   ("priority", recGet rec "priority"),
   ("created_on", recGet rec "sys_created_on"),
   ("updated_on", recGet rec "sys_updated_on")]

/-- Mirrors `data.get("result", [])`: the `result` array of the body, or the
empty list when the key is missing.  A body or `result` value of another
shape is outside every claim. -/
def resultList (body : Json) : List Json :=
  match body with
  | Json.obj fields =>
    match fields.lookup "result" with
    | some (Json.arr xs) => xs
    | _ => []
  | _ => []

/-- An outbound HTTP GET as issued through `requests.get`: target URL and
query parameters (all values rendered as strings). -/
structure Request where
  url : String
  queryParams : List (String × String)
deriving DecidableEq

/-- Outcome of one `requests.get` + `raise_for_status()` + `response.json()`
sequence, as observed by the calling operation: a parsed body, or an
exception caught by the `except requests.RequestException` handler
(`transportError` covers connection errors, timeouts and non-2xx statuses;
`badJson` covers `requests.exceptions.JSONDecodeError` from a malformed
body).  The carried string is `str(e)`. -/
inductive HttpOutcome where
  | ok (body : Json)
  | transportError (message : String)
  | badJson (message : String)

/-- Parameters of `list_problems` (class ListProblemsParams, lines 20-28).
pydantic `Field` declares defaults and descriptions only; no value
constraint is attached to any field. -/
structure ListProblemsParams where
  limit : Int := 10
  offset : Int := 0
  state : Option String := none
  assigned_to : Option String := none
  category : Option String := none
  query : Option String := none

/-- Parameters of `get_problem_by_number` (class GetProblemByNumberParams,
lines 31-34): `problem_number` is required (`Field(...)`) with no other
constraint. -/
structure GetProblemByNumberParams where
  problem_number : String

/-- Parameters of `search_problems` (class SearchProblemsParams,
lines 37-42). -/
structure SearchProblemsParams where
  keywords : List String
  limit : Int := 10
  offset : Int := 0

/-- Pydantic validation of `ListProblemsParams`: every field either has a
default or is optional, and no field carries a value constraint, so any
combination of typed inputs is accepted. -/
def ListProblemsParams.validate (limit offset : Int)
    (state assigned_to category query : Option String) :
    Except String ListProblemsParams :=
  Except.ok { limit := limit, offset := offset, state := state,
              assigned_to := assigned_to, category := category, query := query }

/-- Pydantic validation of `GetProblemByNumberParams`: `problem_number` is
declared `Field(...)` (required), so a missing value is a `ValidationError`;
any string value, including the empty string, is accepted (no min-length or
non-blank constraint is declared). -/
def GetProblemByNumberParams.validate (problem_number : Option String) :
    Except String GetProblemByNumberParams :=
  match problem_number with
  | none => Except.error "Field required"
  | some s => Except.ok { problem_number := s }

/-- Mirrors the truthiness tests `if params.state:` etc. (lines 71-77): an
optional string clause is emitted only when the value is present and
non-empty. -/
def eqClause (field : String) (v : Option String) : List String :=
  match v with
  | none => []
  | some s => if s.isEmpty then [] else [field ++ "=" ++ s]

/-- Mirrors line 78: the free-text query clause over the two text fields. -/
def likeClause (v : Option String) : List String :=
  match v with
  | none => []
  | some q =>
    if q.isEmpty then []
    else ["short_descriptionLIKE" ++ q ++ "^ORdescriptionLIKE" ++ q]

/-- Mirrors the filter accumulation of lines 70-78, in source order. -/
def listFilters (p : ListProblemsParams) : List String :=
  eqClause "state" p.state ++ eqClause "assigned_to" p.assigned_to ++
  eqClause "category" p.category ++ likeClause p.query

/-- Mirrors the `query_params` dict of `list_problems` (lines 63-81):
`sysparm_query` is added only when at least one filter is present, joined
with the `^` AND separator. -/
def listQueryParams (p : ListProblemsParams) : List (String × String) :=
  [("sysparm_limit", toString p.limit),
   ("sysparm_offset", toString p.offset),
   ("sysparm_display_value", "true"),
   ("sysparm_exclude_reference_link", "true")] ++
  (if (listFilters p).isEmpty then []
   else [("sysparm_query", String.intercalate "^" (listFilters p))])

/-- Embedding of `list_problems` (lines 45-128).  `apiUrl` stands for
`config.api_url`; `http` is the transport.  Returns the envelope and the
log of issued requests. -/
def list_problems (apiUrl : String) (http : Request → HttpOutcome)
    (p : ListProblemsParams) :
    (Bool × String × List (List (String × Json))) × List Request :=
  let req : Request := { url := apiUrl ++ "/table/problem", queryParams := listQueryParams p }
  (match http req with
   | HttpOutcome.ok body =>
     let problems := (resultList body).map normalizeProblem
     (true, "Found " ++ toString problems.length ++ " problems", problems)
   | HttpOutcome.transportError m =>
     (false, "Failed to list problems: " ++ m, [])
   | HttpOutcome.badJson m =>
     (false, "Failed to list problems: " ++ m, []),
   [req])

/-- Embedding of `get_problem_by_number` (lines 131-202).  The envelope is
(success, message, problem); `problem` is `none` exactly when the Python
dict omits the `problem` key. -/
def get_problem_by_number (apiUrl : String) (http : Request → HttpOutcome)
    (p : GetProblemByNumberParams) :
    (Bool × String × Option (List (String × Json))) × List Request :=
  let req : Request :=
    { url := apiUrl ++ "/table/problem",
      queryParams :=
        [("sysparm_query", "number=" ++ p.problem_number),
         ("sysparm_limit", "1"),
         ("sysparm_display_value", "true"),
         ("sysparm_exclude_reference_link", "true")] }
  (match http req with
   | HttpOutcome.ok body =>
     match resultList body with
     | [] =>
       (false, "Problem not found: " ++ p.problem_number, none)
     | rec :: _ =>
       (true, "Problem " ++ p.problem_number ++ " found",
        some (normalizeProblem rec))
   | HttpOutcome.transportError m =>
     (false, "Failed to fetch problem: " ++ m, none)
   | HttpOutcome.badJson m =>
     (false, "Failed to fetch problem: " ++ m, none),
   [req])

/-- Mirrors the OR-chain accumulation loop of `search_problems`
(lines 221-226): only the literally empty keyword is skipped (`if not kw`);
each kept keyword contributes one clause on each of the two text fields. -/
def searchOrParts : List String → List String
  | [] => []
  | kw :: rest =>
    if kw.isEmpty then searchOrParts rest
    else ("short_descriptionLIKE" ++ kw) :: ("descriptionLIKE" ++ kw) :: searchOrParts rest

/-- Embedding of `search_problems` (lines 205-280), including both
short-circuit returns (lines 217-218 and 228-229) that precede any
network call. -/
def search_problems (apiUrl : String) (http : Request → HttpOutcome)
    (p : SearchProblemsParams) :
    (Bool × String × List (List (String × Json))) × List Request :=
  if p.keywords.isEmpty then
    ((true, "No keywords provided", []), [])
  else
    let or_parts := searchOrParts p.keywords
    if or_parts.isEmpty then
      ((true, "No valid keywords", []), [])
    else
      let req : Request :=
        { url := apiUrl ++ "/table/problem",
          queryParams :=
            [("sysparm_query", String.intercalate "^OR" or_parts),
             ("sysparm_limit", toString p.limit),
             ("sysparm_offset", toString p.offset),
             ("sysparm_display_value", "true"),
             ("sysparm_exclude_reference_link", "true"),
             ("sysparm_fields", "sys_id,number,short_description,state,priority,sys_created_on,sys_updated_on")] }
      (match http req with
       | HttpOutcome.ok body =>
         let problems := (resultList body).map normalizeSearchProblem
         (true, "Found " ++ toString problems.length ++ " problems matching keywords", problems)
       | HttpOutcome.transportError m =>
         (false, "Failed to search problems: " ++ m, [])
       | HttpOutcome.badJson m =>
         (false, "Failed to search problems: " ++ m, []),
       [req])

/-! Theorems settling the claims. -/

/-- C2: for every problem number, an upstream success with an empty result
array yields success=false with message exactly
"Problem not found: <number>", and a non-empty result array yields
success=true with the first record normalized to the detail view. -/
theorem C2_get_by_number_semantics (apiUrl : String) (body : Json)
    (p : GetProblemByNumberParams) :
    (resultList body = [] →
      (get_problem_by_number apiUrl (fun _ => HttpOutcome.ok body) p).1 =
        (false, "Problem not found: " ++ p.problem_number, none))
  ∧ (∀ rec rest, resultList body = rec :: rest →
      (get_problem_by_number apiUrl (fun _ => HttpOutcome.ok body) p).1 =
        (true, "Problem " ++ p.problem_number ++ " found",
          some (normalizeProblem rec))) := by
  constructor
  · intro h
    simp [get_problem_by_number, h]
  · intro rec rest h
    simp [get_problem_by_number, h]

/-- Witness for C2 at the spec scenario PRB0099999 with an empty result
array, and at a one-record response. -/
theorem C2_get_by_number_semantics_witness :
    ((get_problem_by_number "https://inst/api/now"
        (fun _ => HttpOutcome.ok (Json.obj [("result", Json.arr [])]))
        { problem_number := "PRB0099999" }).1 =
      (false, "Problem not found: " ++ "PRB0099999", none))
  ∧ ((get_problem_by_number "https://inst/api/now"
        (fun _ => HttpOutcome.ok
          (Json.obj [("result", Json.arr [Json.obj [("number", Json.str "PRB0010001")]])]))
        { problem_number := "PRB0010001" }).1 =
      (true, "Problem " ++ "PRB0010001" ++ " found",
        some (normalizeProblem (Json.obj [("number", Json.str "PRB0010001")])))) :=
  ⟨(C2_get_by_number_semantics "https://inst/api/now"
      (Json.obj [("result", Json.arr [])]) { problem_number := "PRB0099999" }).1 rfl,
   (C2_get_by_number_semantics "https://inst/api/now"
      (Json.obj [("result", Json.arr [Json.obj [("number", Json.str "PRB0010001")]])])
      { problem_number := "PRB0010001" }).2
      (Json.obj [("number", Json.str "PRB0010001")]) [] rfl⟩

/-- C4: for each of the three operations, a transport-level failure and a
malformed JSON body are converted into the failure envelope
(false, "Failed to <action>: <cause>", empty payload); the embedded
operations are total functions, so no exception escapes.  For
search_problems the hypotheses exclude the two short-circuit paths on
which no request is issued at all. -/
theorem C4_failures_become_envelopes (apiUrl msg : String)
    (lp : ListProblemsParams) (gp : GetProblemByNumberParams)
    (sp : SearchProblemsParams)
    (h1 : sp.keywords ≠ []) (h2 : searchOrParts sp.keywords ≠ []) :
    ((list_problems apiUrl (fun _ => HttpOutcome.transportError msg) lp).1 =
      (false, "Failed to list problems: " ++ msg, []))
  ∧ ((list_problems apiUrl (fun _ => HttpOutcome.badJson msg) lp).1 =
      (false, "Failed to list problems: " ++ msg, []))
  ∧ ((get_problem_by_number apiUrl (fun _ => HttpOutcome.transportError msg) gp).1 =
      (false, "Failed to fetch problem: " ++ msg, none))
  ∧ ((get_problem_by_number apiUrl (fun _ => HttpOutcome.badJson msg) gp).1 =
      (false, "Failed to fetch problem: " ++ msg, none))
  ∧ ((search_problems apiUrl (fun _ => HttpOutcome.transportError msg) sp).1 =
      (false, "Failed to search problems: " ++ msg, []))
  ∧ ((search_problems apiUrl (fun _ => HttpOutcome.badJson msg) sp).1 =
      (false, "Failed to search problems: " ++ msg, [])) := by
  refine ⟨rfl, rfl, rfl, rfl, ?_, ?_⟩ <;>
    simp [search_problems, List.isEmpty_iff, h1, h2]

/-- Witness for C4 at a concrete keyword list and cause. -/
theorem C4_failures_become_envelopes_witness :
    ((search_problems "https://inst/api/now"
        (fun _ => HttpOutcome.transportError "Connection refused")
        { keywords := ["email"] }).1 =
      (false, "Failed to search problems: " ++ "Connection refused", [])) :=
  (C4_failures_become_envelopes "https://inst/api/now" "Connection refused"
    {} { problem_number := "PRB0010001" } { keywords := ["email"] }
    (by decide) (by decide)).2.2.2.2.1

/-- C10: passing the empty string for state, assigned_to, category and query
behaves exactly like passing no value at all: the whole operation result is
identical, and the built query parameters carry no sysparm_query key
(unfiltered listing). -/
theorem C10_empty_strings_are_absent (apiUrl : String)
    (http : Request → HttpOutcome) (l o : Int) :
    (list_problems apiUrl http
        { limit := l, offset := o, state := some "", assigned_to := some "",
          category := some "", query := some "" } =
      list_problems apiUrl http { limit := l, offset := o })
  ∧ (listQueryParams
        { limit := l, offset := o, state := some "", assigned_to := some "",
          category := some "", query := some "" } =
      [("sysparm_limit", toString l),
       ("sysparm_offset", toString o),
       ("sysparm_display_value", "true"),
       ("sysparm_exclude_reference_link", "true")]) :=
  ⟨rfl, rfl⟩

/-- Spec-side notion of a blank string: every character is whitespace (this
is what "blank after trimming" means for the keyword claims). -/
def isBlank (s : String) : Bool :=
  s.toList.all Char.isWhitespace

/-- A non-empty string has isEmpty = false. -/
theorem isEmptyFalseOfNe {s : String} (h : s ≠ "") : s.isEmpty = false := by
  cases he : s.isEmpty
  · rfl
  · exact absurd ((String.isEmpty_iff s).mp he) h

/-- The query parameters built by list_problems always carry the two
display flags. -/
theorem listQueryParams_flags (p : ListProblemsParams) :
    ((listQueryParams p).lookup "sysparm_display_value" = some "true")
  ∧ ((listQueryParams p).lookup "sysparm_exclude_reference_link" = some "true") := by
  constructor <;> simp [listQueryParams, List.lookup]

/-- C9: every HTTP request issued by any of the three operations targets
apiUrl ++ "/table/problem" and carries the query parameters
sysparm_display_value=true and sysparm_exclude_reference_link=true. -/
theorem C9_request_url_and_display_flags (apiUrl : String)
    (http : Request → HttpOutcome) (lp : ListProblemsParams)
    (gp : GetProblemByNumberParams) (sp : SearchProblemsParams) :
    (∀ req ∈ (list_problems apiUrl http lp).2,
       req.url = apiUrl ++ "/table/problem"
       ∧ req.queryParams.lookup "sysparm_display_value" = some "true"
       ∧ req.queryParams.lookup "sysparm_exclude_reference_link" = some "true")
  ∧ (∀ req ∈ (get_problem_by_number apiUrl http gp).2,
       req.url = apiUrl ++ "/table/problem"
       ∧ req.queryParams.lookup "sysparm_display_value" = some "true"
       ∧ req.queryParams.lookup "sysparm_exclude_reference_link" = some "true")
  ∧ (∀ req ∈ (search_problems apiUrl http sp).2,
       req.url = apiUrl ++ "/table/problem"
       ∧ req.queryParams.lookup "sysparm_display_value" = some "true"
       ∧ req.queryParams.lookup "sysparm_exclude_reference_link" = some "true") := by
  refine ⟨?_, ?_, ?_⟩
  · intro req hreq
    have hr : req = { url := apiUrl ++ "/table/problem", queryParams := listQueryParams lp } := by
      simpa [list_problems] using hreq
    subst hr
    exact ⟨rfl, (listQueryParams_flags lp).1, (listQueryParams_flags lp).2⟩
  · intro req hreq
    have hr : req =
        { url := apiUrl ++ "/table/problem",
          queryParams :=
            [("sysparm_query", "number=" ++ gp.problem_number),
             ("sysparm_limit", "1"),
             ("sysparm_display_value", "true"),
             ("sysparm_exclude_reference_link", "true")] } := by
      simpa [get_problem_by_number] using hreq
    subst hr
    exact ⟨rfl, by simp [List.lookup], by simp [List.lookup]⟩
  · intro req hreq
    by_cases hk : sp.keywords.isEmpty
    · simp [search_problems, hk] at hreq
    · by_cases ho : (searchOrParts sp.keywords).isEmpty
      · simp [search_problems, hk, ho] at hreq
      · have hr : req =
            { url := apiUrl ++ "/table/problem",
              queryParams :=
                [("sysparm_query", String.intercalate "^OR" (searchOrParts sp.keywords)),
                 ("sysparm_limit", toString sp.limit),
                 ("sysparm_offset", toString sp.offset),
                 ("sysparm_display_value", "true"),
                 ("sysparm_exclude_reference_link", "true"),
                 ("sysparm_fields", "sys_id,number,short_description,state,priority,sys_created_on,sys_updated_on")] } := by
          simpa [search_problems, hk, ho] using hreq
        subst hr
        exact ⟨rfl, by simp [List.lookup], by simp [List.lookup]⟩

/-- Witness for C9 on a concrete list_problems run with default parameters. -/
theorem C9_request_url_and_display_flags_witness :
    (({ url := "https://inst/api/now" ++ "/table/problem",
        queryParams := listQueryParams {} } : Request).url =
      "https://inst/api/now" ++ "/table/problem")
  ∧ (({ url := "https://inst/api/now" ++ "/table/problem",
        queryParams := listQueryParams {} } : Request).queryParams.lookup
        "sysparm_display_value" = some "true")
  ∧ (({ url := "https://inst/api/now" ++ "/table/problem",
        queryParams := listQueryParams {} } : Request).queryParams.lookup
        "sysparm_exclude_reference_link" = some "true") :=
  (C9_request_url_and_display_flags "https://inst/api/now"
      (fun _ => HttpOutcome.ok (Json.obj [])) {} { problem_number := "PRB0010001" }
      { keywords := ["email"] }).1
    { url := "https://inst/api/now" ++ "/table/problem", queryParams := listQueryParams {} }
    (List.mem_singleton.mpr rfl)

/-- Rendering of one equality filter as the claim states it: a present,
non-empty value is rendered as field=value; an absent or empty value
contributes nothing. -/
def specRenderEq (field : String) : Option String → List String
  | some v => if v = "" then [] else [field ++ "=" ++ v]
  | none => []

/-- Rendering of the free-text query as the claim states it: a present,
non-empty query becomes the two-field LIKE clause. -/
def specRenderLike : Option String → List String
  | some q =>
    if q = "" then []
    else ["short_descriptionLIKE" ++ q ++ "^ORdescriptionLIKE" ++ q]
  | none => []

/-- The clause list of a list_problems call as the claim describes it: the
rendered equality filters that are present, with the rendered free-text
query appended after them. -/
def specClauses (p : ListProblemsParams) : List String :=
  specRenderEq "state" p.state ++ specRenderEq "assigned_to" p.assigned_to ++
  specRenderEq "category" p.category ++ specRenderLike p.query

/-- The sysparm_query value of a list_problems call as the claim describes
it: the present clauses joined with the ^ AND separator, or no parameter at
all when no filter and no query is present. -/
def specListQuery (p : ListProblemsParams) : Option String :=
  if specClauses p = [] then none
  else some (String.intercalate "^" (specClauses p))

/-- The code's equality-filter clause coincides with the claim's rendering
for every input. -/
theorem eqClause_eq_spec (field : String) (v : Option String) :
    eqClause field v = specRenderEq field v := by
  cases v with
  | none => rfl
  | some s => simp [eqClause, specRenderEq, String.isEmpty_iff]

/-- The code's free-text clause coincides with the claim's rendering for
every input. -/
theorem likeClause_eq_spec (v : Option String) :
    likeClause v = specRenderLike v := by
  cases v with
  | none => rfl
  | some q => simp [likeClause, specRenderLike, String.isEmpty_iff]

/-- The code's filter list coincides with the claim's clause list for every
call. -/
theorem listFilters_eq_spec (p : ListProblemsParams) :
    listFilters p = specClauses p := by
  simp [listFilters, specClauses, eqClause_eq_spec, likeClause_eq_spec]

/-- The sysparm_query parameter list_problems sends: present exactly when
some filter clause exists, and then the ^-join of the filter list. -/
theorem listQueryParams_lookup_query (p : ListProblemsParams) :
    (listQueryParams p).lookup "sysparm_query" =
      (if (listFilters p).isEmpty then none
       else some (String.intercalate "^" (listFilters p))) := by
  cases h : (listFilters p).isEmpty
  · simp [listQueryParams, h, List.lookup]
  · simp [listQueryParams, h, List.lookup]

/-- C8: for every list_problems call — any subset of state, assigned_to,
category and query present — exactly one request is issued, and its
sysparm_query is the claim's rendering: each present equality filter as
field=value, joined with the ^ AND separator, the present free-text query
rendered as short_descriptionLIKE<q>^ORdescriptionLIKE<q> and appended to
that chain, and no sysparm_query parameter at all when no filter and no
query is present. -/
theorem C8_list_filter_rendering (apiUrl : String) (http : Request → HttpOutcome)
    (p : ListProblemsParams) :
    ((list_problems apiUrl http p).2 =
      [{ url := apiUrl ++ "/table/problem", queryParams := listQueryParams p }])
  ∧ ((listQueryParams p).lookup "sysparm_query" = specListQuery p) := by
  refine ⟨rfl, ?_⟩
  rw [listQueryParams_lookup_query, listFilters_eq_spec, specListQuery]
  simp [List.isEmpty_iff]

/-- Witness for C8 exercising four presence patterns: only the free-text
query present (the spec scenario list(query="email", limit=5)), only the
state filter present, all four present, and none present. -/
theorem C8_list_filter_rendering_witness :
    ((listQueryParams { limit := 5, query := some "email" }).lookup "sysparm_query" =
      some "short_descriptionLIKEemail^ORdescriptionLIKEemail")
  ∧ ((listQueryParams { state := some "1" }).lookup "sysparm_query" =
      some "state=1")
  ∧ ((listQueryParams
        { state := some "1", assigned_to := some "abc", category := some "Software",
          query := some "email" }).lookup "sysparm_query" =
      some "state=1^assigned_to=abc^category=Software^short_descriptionLIKEemail^ORdescriptionLIKEemail")
  ∧ ((listQueryParams {}).lookup "sysparm_query" = none)
  ∧ ((list_problems "https://inst/api/now" (fun _ => HttpOutcome.ok (Json.obj []))
        { limit := 5, query := some "email" }).2 =
      [{ url := "https://inst/api/now" ++ "/table/problem",
         queryParams := listQueryParams { limit := 5, query := some "email" } }]) :=
  ⟨(C8_list_filter_rendering "https://inst/api/now"
      (fun _ => HttpOutcome.ok (Json.obj [])) { limit := 5, query := some "email" }).2,
   (C8_list_filter_rendering "https://inst/api/now"
      (fun _ => HttpOutcome.ok (Json.obj [])) { state := some "1" }).2,
   (C8_list_filter_rendering "https://inst/api/now"
      (fun _ => HttpOutcome.ok (Json.obj []))
      { state := some "1", assigned_to := some "abc", category := some "Software",
        query := some "email" }).2,
   (C8_list_filter_rendering "https://inst/api/now"
      (fun _ => HttpOutcome.ok (Json.obj [])) {}).2,
   (C8_list_filter_rendering "https://inst/api/now"
      (fun _ => HttpOutcome.ok (Json.obj [])) { limit := 5, query := some "email" }).1⟩

/-- The OR-chain accumulation of search_problems expands every kept keyword
into one clause per text field. -/
theorem searchOrParts_flatMap (ks : List String) :
    searchOrParts ks =
      ks.flatMap (fun kw =>
        if kw.isEmpty then []
        else ["short_descriptionLIKE" ++ kw, "descriptionLIKE" ++ kw]) := by
  induction ks with
  | nil => rfl
  | cons k rest ih =>
    cases h : k.isEmpty <;> simp [searchOrParts, h, ih]

/-- Clause count of the OR-chain: two per non-empty keyword. -/
theorem searchOrParts_length (ks : List String) :
    (searchOrParts ks).length = 2 * (ks.filter (fun kw => !kw.isEmpty)).length := by
  induction ks with
  | nil => rfl
  | cons k rest ih =>
    cases h : k.isEmpty
    · simp [searchOrParts, h, ih]
      omega
    · simp [searchOrParts, h, ih]

/-- A keyword list of empty strings yields an empty OR-chain. -/
theorem searchOrParts_nil_of_all_empty (ks : List String)
    (h : ∀ kw ∈ ks, kw = "") : searchOrParts ks = [] := by
  induction ks with
  | nil => rfl
  | cons k rest ih =>
    have hk : k = "" := h k (List.mem_cons_self k rest)
    subst hk
    simp [searchOrParts]
    exact ih fun kw hkw => h kw (List.mem_cons_of_mem _ hkw)

/-- C3 counterexample: the keyword " " is blank, yet search_problems builds
two LIKE clauses for it, so the chain does not contain 2*K minus the
blank-keyword terms (that would be zero clauses here). -/
theorem C3_counterexample_blank_keyword :
    (isBlank " " = true)
  ∧ (searchOrParts [" "] = ["short_descriptionLIKE ", "descriptionLIKE "])
  ∧ ((search_problems "https://inst/api/now"
        (fun _ => HttpOutcome.ok (Json.obj [("result", Json.arr [])]))
        { keywords := [" "] }).2.map
          (fun req => req.queryParams.lookup "sysparm_query") =
      [some "short_descriptionLIKE ^ORdescriptionLIKE "]) :=
  ⟨rfl, rfl, rfl⟩

/-- C3 amended: for every keyword list, the built sysparm_query is the
^OR-join of exactly two LIKE clauses (one on short_description, one on
description) per non-empty keyword; only literally empty keywords are
skipped, so a whitespace-only keyword still contributes its two clauses. -/
theorem C3_amended_or_chain (apiUrl : String) (http : Request → HttpOutcome)
    (p : SearchProblemsParams)
    (hk : p.keywords ≠ []) (hp : searchOrParts p.keywords ≠ []) :
    (searchOrParts p.keywords =
      p.keywords.flatMap (fun kw =>
        if kw.isEmpty then []
        else ["short_descriptionLIKE" ++ kw, "descriptionLIKE" ++ kw]))
  ∧ ((searchOrParts p.keywords).length =
      2 * (p.keywords.filter (fun kw => !kw.isEmpty)).length)
  ∧ ((search_problems apiUrl http p).2.map
        (fun req => req.queryParams.lookup "sysparm_query") =
      [some (String.intercalate "^OR" (searchOrParts p.keywords))]) := by
  refine ⟨searchOrParts_flatMap p.keywords, searchOrParts_length p.keywords, ?_⟩
  have hk2 : p.keywords.isEmpty = false := by
    simpa [List.isEmpty_iff] using hk
  have hp2 : (searchOrParts p.keywords).isEmpty = false := by
    simpa [List.isEmpty_iff] using hp
  simp [search_problems, hk2, hp2, List.lookup]

/-- Witness for C3 amended at the spec scenario keywords Windows, update. -/
theorem C3_amended_or_chain_witness :
    (searchOrParts ["Windows", "update"] =
      (["Windows", "update"] : List String).flatMap (fun kw =>
        if kw.isEmpty then []
        else ["short_descriptionLIKE" ++ kw, "descriptionLIKE" ++ kw]))
  ∧ ((searchOrParts ["Windows", "update"]).length =
      2 * ((["Windows", "update"] : List String).filter (fun kw => !kw.isEmpty)).length)
  ∧ ((search_problems "https://inst/api/now" (fun _ => HttpOutcome.ok (Json.obj []))
        { keywords := ["Windows", "update"], limit := 3 }).2.map
          (fun req => req.queryParams.lookup "sysparm_query") =
      [some (String.intercalate "^OR" (searchOrParts ["Windows", "update"]))]) :=
  C3_amended_or_chain "https://inst/api/now" (fun _ => HttpOutcome.ok (Json.obj []))
    { keywords := ["Windows", "update"], limit := 3 } (by decide) (by decide)

/-- C5 counterexample: a keyword list whose single entry is blank after
trimming (the one-space string) does not short-circuit: search_problems
issues an HTTP request for it. -/
theorem C5_counterexample_whitespace_keyword :
    (isBlank " " = true)
  ∧ ((search_problems "https://inst/api/now"
        (fun _ => HttpOutcome.ok (Json.obj [("result", Json.arr [])]))
        { keywords := [" "] }).2 =
      [{ url := "https://inst/api/now" ++ "/table/problem",
         queryParams :=
           [("sysparm_query", "short_descriptionLIKE ^ORdescriptionLIKE "),
            ("sysparm_limit", "10"),
            ("sysparm_offset", "0"),
            ("sysparm_display_value", "true"),
            ("sysparm_exclude_reference_link", "true"),
            ("sysparm_fields", "sys_id,number,short_description,state,priority,sys_created_on,sys_updated_on")] }]) :=
  ⟨rfl, rfl⟩

/-- C5 amended: for every keyword list whose entries are all literally empty
strings (including the empty list), search_problems returns success=true
with an empty problems list and an explanatory message, and issues no HTTP
request; keywords that are merely whitespace are not trimmed and do not
short-circuit. -/
theorem C5_amended_all_empty_short_circuits (apiUrl : String)
    (http : Request → HttpOutcome) (p : SearchProblemsParams)
    (h : ∀ kw ∈ p.keywords, kw = "") :
    ((search_problems apiUrl http p).1.1 = true)
  ∧ ((search_problems apiUrl http p).1.2.2 = [])
  ∧ ((search_problems apiUrl http p).1.2.1 =
      (if p.keywords.isEmpty then "No keywords provided" else "No valid keywords"))
  ∧ ((search_problems apiUrl http p).2 = []) := by
  cases hk : p.keywords.isEmpty
  · have hp : searchOrParts p.keywords = [] :=
      searchOrParts_nil_of_all_empty p.keywords h
    refine ⟨?_, ?_, ?_, ?_⟩ <;> simp [search_problems, hk, hp]
  · refine ⟨?_, ?_, ?_, ?_⟩ <;> simp [search_problems, hk]

/-- Witness for C5 amended at the two-empty-keyword list. -/
theorem C5_amended_all_empty_short_circuits_witness :
    ((search_problems "https://inst/api/now" (fun _ => HttpOutcome.ok (Json.obj []))
        { keywords := ["", ""] }).1.1 = true)
  ∧ ((search_problems "https://inst/api/now" (fun _ => HttpOutcome.ok (Json.obj []))
        { keywords := ["", ""] }).1.2.2 = [])
  ∧ ((search_problems "https://inst/api/now" (fun _ => HttpOutcome.ok (Json.obj []))
        { keywords := ["", ""] }).1.2.1 =
      (if (["", ""] : List String).isEmpty then "No keywords provided"
       else "No valid keywords"))
  ∧ ((search_problems "https://inst/api/now" (fun _ => HttpOutcome.ok (Json.obj []))
        { keywords := ["", ""] }).2 = []) :=
  C5_amended_all_empty_short_circuits "https://inst/api/now"
    (fun _ => HttpOutcome.ok (Json.obj [])) { keywords := ["", ""] } (by decide)

/-- C6 counterexample: limit=0 passes validation (no constraint is declared
on the pydantic fields) and list_problems issues the HTTP call with
sysparm_limit=0 instead of raising a ValidationError. -/
theorem C6_counterexample_limit_zero :
    (ListProblemsParams.validate 0 0 none none none none =
      Except.ok { limit := 0, offset := 0 })
  ∧ ((list_problems "https://inst/api/now"
        (fun _ => HttpOutcome.ok (Json.obj [("result", Json.arr [])]))
        { limit := 0, offset := 0 }).2 =
      [{ url := "https://inst/api/now" ++ "/table/problem",
         queryParams :=
           [("sysparm_limit", "0"),
            ("sysparm_offset", "0"),
            ("sysparm_display_value", "true"),
            ("sysparm_exclude_reference_link", "true")] }]) :=
  ⟨rfl, rfl⟩

/-- C6 amended: no limit/offset validation exists; every integer limit and
offset (including limit ≤ 0 and offset < 0) is accepted and forwarded
verbatim as sysparm_limit/sysparm_offset in the single issued request. -/
theorem C6_amended_no_limit_validation (apiUrl : String)
    (http : Request → HttpOutcome) (limit offset : Int) :
    (ListProblemsParams.validate limit offset none none none none =
      Except.ok { limit := limit, offset := offset })
  ∧ ((list_problems apiUrl http { limit := limit, offset := offset }).2 =
      [{ url := apiUrl ++ "/table/problem",
         queryParams :=
           [("sysparm_limit", toString limit),
            ("sysparm_offset", toString offset),
            ("sysparm_display_value", "true"),
            ("sysparm_exclude_reference_link", "true")] }]) :=
  ⟨rfl, rfl⟩

/-- C7 counterexample: the empty problem number passes validation, and
get_problem_by_number issues the HTTP call with sysparm_query "number="
instead of failing before the network call. -/
theorem C7_counterexample_blank_number :
    (GetProblemByNumberParams.validate (some "") =
      Except.ok { problem_number := "" })
  ∧ ((get_problem_by_number "https://inst/api/now"
        (fun _ => HttpOutcome.ok (Json.obj [("result", Json.arr [])]))
        { problem_number := "" }).2 =
      [{ url := "https://inst/api/now" ++ "/table/problem",
         queryParams :=
           [("sysparm_query", "number="),
            ("sysparm_limit", "1"),
            ("sysparm_display_value", "true"),
            ("sysparm_exclude_reference_link", "true")] }]) :=
  ⟨rfl, rfl⟩

/-- C7 amended: problem_number is required — a missing value is rejected by
validation before any network call — but it is not checked for blankness:
every string, the empty string included, is accepted and the request is
issued with sysparm_query "number=" ++ the given value. -/
theorem C7_amended_number_required_not_blank_checked (apiUrl : String)
    (http : Request → HttpOutcome) (s : String) :
    (GetProblemByNumberParams.validate none = Except.error "Field required")
  ∧ (GetProblemByNumberParams.validate (some s) =
      Except.ok { problem_number := s })
  ∧ ((get_problem_by_number apiUrl http { problem_number := s }).2 =
      [{ url := apiUrl ++ "/table/problem",
         queryParams :=
           [("sysparm_query", "number=" ++ s),
            ("sysparm_limit", "1"),
            ("sysparm_display_value", "true"),
            ("sysparm_exclude_reference_link", "true")] }]) :=
  ⟨rfl, rfl, rfl⟩

/-- C1 counterexample: a structured object in the state field of a raw
record of a successful list_problems response passes through as the object
itself; it is not collapsed to its display_value member. -/
theorem C1_counterexample_state_not_collapsed :
    ((list_problems "https://inst/api/now"
        (fun _ => HttpOutcome.ok (Json.obj [("result", Json.arr
          [Json.obj [("state", Json.obj [("display_value", Json.str "Open"),
                                         ("value", Json.str "1")])]])]))
        {}).1.2.2.map (fun r => r.lookup "state") =
      [some (Json.obj [("display_value", Json.str "Open"), ("value", Json.str "1")])])
  ∧ (Json.obj [("display_value", Json.str "Open"), ("value", Json.str "1")] ≠
      Json.str "Open") :=
  ⟨rfl, fun h => Json.noConfusion h⟩

/-- C1 amended: normalizeProblem always emits exactly the eleven declared
output keys in order, never omitting one; an absent source field becomes an
explicit null; the assigned_to field alone is collapsed from a structured
object to its display_value member, a scalar assigned_to passes through;
every other declared field passes through unchanged even when structured;
and both list_problems and get_problem_by_number produce their records
through this normalizer on success. -/
theorem C1_amended_normalization (rec : Json) :
    ((normalizeProblem rec).map Prod.fst =
      ["sys_id", "number", "short_description", "description", "state",
       "priority", "assigned_to", "category", "subcategory", "created_on",
       "updated_on"])
  ∧ (∀ fields, recGet rec "assigned_to" = Json.obj fields →
      (normalizeProblem rec).lookup "assigned_to" =
        some ((fields.lookup "display_value").getD Json.null))
  ∧ (∀ s, recGet rec "assigned_to" = Json.str s →
      (normalizeProblem rec).lookup "assigned_to" = some (Json.str s))
  ∧ (∀ fields, rec = Json.obj fields → fields.lookup "description" = none →
      (normalizeProblem rec).lookup "description" = some Json.null)
  ∧ ((normalizeProblem rec).lookup "sys_id" = some (recGet rec "sys_id"))
  ∧ ((normalizeProblem rec).lookup "number" = some (recGet rec "number"))
  ∧ ((normalizeProblem rec).lookup "short_description" =
      some (recGet rec "short_description"))
  ∧ ((normalizeProblem rec).lookup "description" =
      some (recGet rec "description"))
  ∧ ((normalizeProblem rec).lookup "state" = some (recGet rec "state"))
  ∧ ((normalizeProblem rec).lookup "priority" = some (recGet rec "priority"))
  ∧ ((normalizeProblem rec).lookup "category" = some (recGet rec "category"))
  ∧ ((normalizeProblem rec).lookup "subcategory" =
      some (recGet rec "subcategory"))
  ∧ ((normalizeProblem rec).lookup "created_on" =
      some (recGet rec "sys_created_on"))
  ∧ ((normalizeProblem rec).lookup "updated_on" =
      some (recGet rec "sys_updated_on"))
  ∧ (∀ apiUrl (p : ListProblemsParams) body,
      (list_problems apiUrl (fun _ => HttpOutcome.ok body) p).1.2.2 =
        (resultList body).map normalizeProblem)
  ∧ (∀ apiUrl (gp : GetProblemByNumberParams) body r rest,
      resultList body = r :: rest →
      (get_problem_by_number apiUrl (fun _ => HttpOutcome.ok body) gp).1.2.2 =
        some (normalizeProblem r)) := by
  refine ⟨rfl, ?_, ?_, ?_, rfl, rfl, rfl, rfl, rfl, rfl, rfl, rfl, rfl, rfl, ?_, ?_⟩
  · intro fields hf
    simp [normalizeProblem, List.lookup, collapseAssignedTo, hf]
  · intro s hs
    simp [normalizeProblem, List.lookup, collapseAssignedTo, hs]
  · intro fields hrec hnone
    subst hrec
    simp [normalizeProblem, List.lookup, recGet, hnone]
  · intro apiUrl p body
    rfl
  · intro apiUrl gp body r rest h
    simp [get_problem_by_number, h]

/-- Witness for C1 amended: a record with an object-valued assigned_to
collapses to the display value, a scalar assigned_to passes through, a
record missing the description field still carries the key with an
explicit null, and the key set is complete on the empty record. -/
theorem C1_amended_normalization_witness :
    ((normalizeProblem (Json.obj
        [("assigned_to", Json.obj [("display_value", Json.str "Jane Admin")])])).lookup
        "assigned_to" = some (Json.str "Jane Admin"))
  ∧ ((normalizeProblem (Json.obj [("assigned_to", Json.str "Bob")])).lookup
        "assigned_to" = some (Json.str "Bob"))
  ∧ ((normalizeProblem (Json.obj [])).lookup "description" = some Json.null)
  ∧ ((normalizeProblem (Json.obj [])).map Prod.fst =
      ["sys_id", "number", "short_description", "description", "state",
       "priority", "assigned_to", "category", "subcategory", "created_on",
       "updated_on"]) :=
  ⟨(C1_amended_normalization (Json.obj
      [("assigned_to", Json.obj [("display_value", Json.str "Jane Admin")])])).2.1
      [("display_value", Json.str "Jane Admin")] rfl,
   (C1_amended_normalization (Json.obj [("assigned_to", Json.str "Bob")])).2.2.1
      "Bob" rfl,
   (C1_amended_normalization (Json.obj [])).2.2.2.1 [] rfl rfl,
   (C1_amended_normalization (Json.obj [])).1⟩
